import Mathlib

/-!
Verification of `src/Math/MathTypeTraits.h` (Magnum math type traits).

The header is a compile-time trait registry over the built-in scalar types:

* `Implementation::MathTypeTraitsDefault<T>` — `equals(a,b) = (a == b)`,
  no `epsilon`, no `FloatingPointType`;
* `Implementation::MathTypeTraitsIntegral<T>` — inherits the default
  `equals`, adds `epsilon() = T(1)`;
* `Implementation::MathTypeTraitsFloatingPoint<T>` —
  `equals(a,b) = std::abs(a - b) < MathTypeTraits<T>::epsilon()`;
* explicit specializations `MathTypeTraits<std::uint8_t>` …
  `MathTypeTraits<long double>` choosing a policy and a
  `FloatingPointType` per type, with epsilons
  `FLOAT_EQUALITY_PRECISION = 1.0e-6`,
  `DOUBLE_EQUALITY_PRECISION = 1.0e-12`,
  `LONG_DOUBLE_EQUALITY_PRECISION = 1.0e-18`.

Embedding choices.  Machine integers are embedded as `Int` together with a
representability predicate per width.  Floating-point values are embedded in
an idealized semantics: an `FP` value is either an exact rational, `+∞`,
`-∞`, or NaN, and subtraction / absolute value / strict comparison follow
the IEEE-754 special-value rules (`∞ - ∞ = NaN`, any comparison involving
NaN is false, `x - x = 0` for finite `x`, `-(a-b) = b-a` exactly).  Every
property proved below depends only on these rules and on the literal
structure of the source expressions, not on rounding of finite
subtraction, so the idealization is faithful for the claims at hand.
The decimal epsilon literals are read as exact rationals.
-/

namespace Magnum

namespace Math

/-- The eight integral scalar types with explicit `MathTypeTraits`
specializations in the header. -/
inductive IntTy where
  | u8 | i8 | u16 | i16 | u32 | i32 | u64 | i64
deriving DecidableEq, Repr

/-- Smallest representable value of an integral scalar type. -/
def IntTy.minVal : IntTy → Int
  | .u8 => 0
  | .i8 => -(2 ^ 7)
  | .u16 => 0
  | .i16 => -(2 ^ 15)
  | .u32 => 0
  | .i32 => -(2 ^ 31)
  | .u64 => 0
  | .i64 => -(2 ^ 63)

/-- Largest representable value of an integral scalar type. -/
def IntTy.maxVal : IntTy → Int
  | .u8 => 2 ^ 8 - 1
  | .i8 => 2 ^ 7 - 1
  | .u16 => 2 ^ 16 - 1
  | .i16 => 2 ^ 15 - 1
  | .u32 => 2 ^ 32 - 1
  | .i32 => 2 ^ 31 - 1
  | .u64 => 2 ^ 64 - 1
  | .i64 => 2 ^ 63 - 1

/-- Predicate stating that `a` is a representable value of the integral
type `t`. -/
def IntTy.inRange (t : IntTy) (a : Int) : Prop :=
  t.minVal ≤ a ∧ a ≤ t.maxVal

instance (t : IntTy) (a : Int) : Decidable (t.inRange a) := by
  unfold IntTy.inRange; infer_instance

/-- The three floating-point scalar types with explicit `MathTypeTraits`
specializations: `float`, `double`, `long double`. -/
inductive FloatTy where
  | f32 | f64 | f80
deriving DecidableEq, Repr

/-- Idealized floating-point value: an exact rational, an infinity, or
NaN. -/
inductive FP where
  | finite (q : ℚ)
  | posInf
  | negInf
  | nan
deriving DecidableEq, Repr

/-- Subtraction on idealized values, following IEEE-754: finite
subtraction is exact, `∞ - ∞` of equal signs is NaN, NaN propagates. -/
def FP.sub : FP → FP → FP
  | .nan, _ => .nan
  | _, .nan => .nan
  | .finite a, .finite b => .finite (a - b)
  | .finite _, .posInf => .negInf
  | .finite _, .negInf => .posInf
  | .posInf, .finite _ => .posInf
  | .posInf, .posInf => .nan
  | .posInf, .negInf => .posInf
  | .negInf, .finite _ => .negInf
  | .negInf, .posInf => .negInf
  | .negInf, .negInf => .nan

/-- Absolute value on idealized values (`std::abs`), following IEEE-754;
NaN propagates. -/
def FP.abs : FP → FP
  | .finite a => .finite |a|
  | .posInf => .posInf
  | .negInf => .posInf
  | .nan => .nan

/-- Strict less-than on idealized values, following IEEE-754: any
comparison involving NaN is false. -/
def FP.lt : FP → FP → Bool
  | .nan, _ => false
  | _, .nan => false
  | .finite a, .finite b => decide (a < b)
  | .finite _, .posInf => true
  | .finite _, .negInf => false
  | .posInf, _ => false
  | .negInf, .posInf => true
  | .negInf, .finite _ => true
  | .negInf, .negInf => false

/-- Embeds `Implementation::MathTypeTraitsDefault<T>::equals`: exact
equality `a == b`.  This is the `equals` inherited by every integral
specialization and by the unspecialized primary template. -/
def MathTypeTraitsDefault.equals {T : Type} [DecidableEq T] (a b : T) : Bool :=
  a = b

/-- Embeds `Implementation::MathTypeTraitsIntegral<T>::epsilon`: the
constant `T(1)`, the same for every integral scalar type. -/
def MathTypeTraitsIntegral.epsilon (_ : IntTy) : Int :=
  1

/-- The epsilon constants of the three floating-point specializations,
reading the default preprocessor literals `1.0e-6`, `1.0e-12` and
`1.0e-18` as exact rationals. -/
def FloatTy.epsilon : FloatTy → ℚ
  | .f32 => 1 / 1000000
  | .f64 => 1 / 1000000000000
  | .f80 => 1 / 1000000000000000000

/-- Embeds `Implementation::MathTypeTraitsFloatingPoint<T>::equals`:
`std::abs(a - b) < MathTypeTraits<T>::epsilon()`, evaluated in the
idealized floating-point semantics. -/
def MathTypeTraitsFloatingPoint.equals (t : FloatTy) (a b : FP) : Bool :=
  FP.lt (FP.abs (FP.sub a b)) (FP.finite t.epsilon)

/-- A scalar type registered in the trait registry: one of the eight
integral or three floating-point specializations. -/
inductive ScalarType where
  | int (t : IntTy)
  | flt (t : FloatTy)
deriving DecidableEq, Repr

/-- The policy variant a registered scalar type's specialization derives
its `equals` from. -/
inductive Policy where
  | defaultPolicy
  | integralPolicy
  | floatingPointPolicy
deriving DecidableEq, Repr

/-- Which policy each explicit `MathTypeTraits` specialization inherits:
the eight integral specializations derive `MathTypeTraitsIntegral`, the
three floating ones derive `MathTypeTraitsFloatingPoint`. -/
def policyOf : ScalarType → Policy
  | .int _ => .integralPolicy
  | .flt _ => .floatingPointPolicy

/-- The `FloatingPointType` member typedef of each explicit
specialization, transcribed from the header. -/
def FloatingPointType : ScalarType → FloatTy
  | .int .u8 => .f32
  | .int .i8 => .f32
  | .int .u16 => .f32
  | .int .i16 => .f32
  | .int .u32 => .f64
  | .int .i32 => .f64
  | .int .u64 => .f80
  | .int .i64 => .f80
  | .flt t => t

/-- The interface a `MathTypeTraits<T>` instantiation resolves: for each
of the three trait operations, `some` when the member exists (the
operation compiles) and `none` when it is absent (requesting it fails to
build). -/
structure TraitInterface (T : Type) where
  floatingPointTy : Option FloatTy
  epsilonVal : Option T
  equalsFn : Option (T → T → Bool)

/-- The unspecialized primary template `MathTypeTraits<T>` for a type `T`
with no registered policy: it inherits only
`Implementation::MathTypeTraitsDefault<T>`, so `equals` resolves to exact
equality while `epsilon` and `FloatingPointType` are absent. -/
def mathTypeTraitsUnregistered (T : Type) [DecidableEq T] : TraitInterface T where
  floatingPointTy := none
  epsilonVal := none
  equalsFn := some fun a b => MathTypeTraitsDefault.equals a b

end Math

end Magnum

open Magnum.Math

/-- Claim C1: for every floating-point type `T` and all finite values `a`
and `b`, `equals(a, b)` returns true precisely when `|a - b| < epsilon(T)`,
and the comparison is strict: when the absolute difference is exactly
`epsilon(T)` the two values compare unequal. -/
theorem C1_floating_equals_iff_abs_lt_epsilon (t : FloatTy) (a b : ℚ) :
    (MathTypeTraitsFloatingPoint.equals t (FP.finite a) (FP.finite b)
      = decide (|a - b| < t.epsilon)) ∧
    (|a - b| = t.epsilon →
      MathTypeTraitsFloatingPoint.equals t (FP.finite a) (FP.finite b) = false) := by
  refine ⟨rfl, fun h => ?_⟩
  simp [MathTypeTraitsFloatingPoint.equals, FP.sub, FP.abs, FP.lt, h]

/-- Witness for C1 at the boundary: for `float`, the pair `(1, 1 + 10⁻⁶)`
has absolute difference exactly `epsilon(float)` and compares unequal. -/
theorem C1_floating_equals_iff_abs_lt_epsilon_witness :
    |(1 : ℚ) - (1 + 1 / 1000000)| = FloatTy.epsilon .f32 ∧
    MathTypeTraitsFloatingPoint.equals .f32 (FP.finite 1)
      (FP.finite (1 + 1 / 1000000)) = false := by
  have h : |(1 : ℚ) - (1 + 1 / 1000000)| = FloatTy.epsilon .f32 := by
    norm_num [FloatTy.epsilon]
  exact ⟨h, (C1_floating_equals_iff_abs_lt_epsilon .f32 1 (1 + 1 / 1000000)).2 h⟩

/-- Claim C2: for every integral scalar type and all representable values
`a` and `b`, `equals(a, b)` returns true exactly when `a = b`; no
tolerance is applied. -/
theorem C2_integral_equals_exact (t : IntTy) (a b : Int)
    (ha : t.inRange a) (hb : t.inRange b) :
    MathTypeTraitsDefault.equals a b = decide (a = b) :=
  rfl

/-- Witness for C2: the int32 values 5 and 6 are representable and compare
unequal even though their difference is `epsilon = 1`. -/
theorem C2_integral_equals_exact_witness :
    IntTy.inRange .i32 5 ∧ IntTy.inRange .i32 6 ∧
    MathTypeTraitsDefault.equals (5 : Int) 6 = decide ((5 : Int) = 6) ∧
    MathTypeTraitsDefault.equals (5 : Int) 6 = false :=
  ⟨by decide, by decide,
   C2_integral_equals_exact .i32 5 6 (by decide) (by decide), by decide⟩

/-- Claim C3: 8- and 16-bit integers map to `float`, 32-bit integers to
`double`, 64-bit integers to `long double`; each floating-point type maps
to itself; and every integral type's counterpart uses the
floating-point (tolerance) policy for its own `equals`. -/
theorem C3_counterpart_mapping :
    FloatingPointType (.int .u8) = .f32 ∧ FloatingPointType (.int .i8) = .f32 ∧
    FloatingPointType (.int .u16) = .f32 ∧ FloatingPointType (.int .i16) = .f32 ∧
    FloatingPointType (.int .u32) = .f64 ∧ FloatingPointType (.int .i32) = .f64 ∧
    FloatingPointType (.int .u64) = .f80 ∧ FloatingPointType (.int .i64) = .f80 ∧
    (∀ f : FloatTy, FloatingPointType (.flt f) = f) ∧
    (∀ i : IntTy, policyOf (.flt (FloatingPointType (.int i))) = .floatingPointPolicy) :=
  ⟨rfl, rfl, rfl, rfl, rfl, rfl, rfl, rfl,
   fun f => by cases f <;> rfl, fun i => rfl⟩

/-- Claim C4: for every integral scalar type, `epsilon` is the constant 1;
it depends only on the type, not on any runtime value. -/
theorem C4_integral_epsilon_one (t : IntTy) :
    MathTypeTraitsIntegral.epsilon t = 1 :=
  rfl

/-- Claim C5: under the default build configuration the floating-point
epsilons are the fixed constants `10⁻⁶` for `float`, `10⁻¹²` for `double`
and `10⁻¹⁸` for `long double`, and each is positive. -/
theorem C5_floating_epsilon_defaults :
    FloatTy.epsilon .f32 = 1 / 10 ^ 6 ∧
    FloatTy.epsilon .f64 = 1 / 10 ^ 12 ∧
    FloatTy.epsilon .f80 = 1 / 10 ^ 18 ∧
    (∀ t : FloatTy, 0 < t.epsilon) := by
  refine ⟨by norm_num [FloatTy.epsilon], by norm_num [FloatTy.epsilon],
    by norm_num [FloatTy.epsilon], fun t => ?_⟩
  cases t <;> norm_num [FloatTy.epsilon]

/-- Counterexample to claim C6 as stated: for a type with no registered
policy (here `Bool`, standing for any unlisted type with equality), the
`equals` operation does not fail to resolve — the primary template
inherits the default policy, so `equals` is defined and evaluates. -/
theorem C6_counterexample_equals_resolves :
    (mathTypeTraitsUnregistered Bool).equalsFn.isSome = true ∧
    ((mathTypeTraitsUnregistered Bool).equalsFn.getD fun _ _ => false)
      true true = true :=
  ⟨rfl, rfl⟩

/-- Claim C6 (amended): for a scalar type with no registered policy,
requesting `epsilon` or `FloatingPointType` fails at compile time
(unresolved), but `equals` is inherited from the default policy and
silently resolves to exact equality. -/
theorem C6_unregistered_traits (T : Type) [inst : DecidableEq T] :
    (mathTypeTraitsUnregistered T).floatingPointTy = none ∧
    (mathTypeTraitsUnregistered T).epsilonVal = none ∧
    (mathTypeTraitsUnregistered T).equalsFn
      = some fun a b => MathTypeTraitsDefault.equals a b :=
  ⟨rfl, rfl, rfl⟩

/-- Witness for C6 (amended) at the concrete unregistered type `Bool`. -/
theorem C6_unregistered_traits_witness :
    (mathTypeTraitsUnregistered Bool).floatingPointTy = none ∧
    (mathTypeTraitsUnregistered Bool).epsilonVal = none ∧
    (mathTypeTraitsUnregistered Bool).equalsFn
      = some fun a b => MathTypeTraitsDefault.equals a b :=
  C6_unregistered_traits Bool

/-- Claim C7: reflexivity — `equals(a, a)` is true for every integral
value and for every finite floating-point value (the floating case uses
that every epsilon is strictly positive). -/
theorem C7_reflexivity (t : FloatTy) (a : Int) (q : ℚ) :
    MathTypeTraitsDefault.equals a a = true ∧
    MathTypeTraitsFloatingPoint.equals t (FP.finite q) (FP.finite q) = true := by
  refine ⟨by simp [MathTypeTraitsDefault.equals], ?_⟩
  simp only [MathTypeTraitsFloatingPoint.equals, FP.sub, FP.abs, FP.lt,
    sub_self, abs_zero, decide_eq_true_eq]
  cases t <;> norm_num [FloatTy.epsilon]

/-- Claim C8: symmetry — `equals(a, b) = equals(b, a)` for all values of
the same type, including infinities and NaN in the floating case. -/
theorem C8_symmetry (t : FloatTy) (x y : FP) (a b : Int) :
    MathTypeTraitsFloatingPoint.equals t x y
      = MathTypeTraitsFloatingPoint.equals t y x ∧
    MathTypeTraitsDefault.equals a b = MathTypeTraitsDefault.equals b a := by
  constructor
  · cases x <;> cases y <;>
      simp [MathTypeTraitsFloatingPoint.equals, FP.sub, FP.abs, FP.lt,
        abs_sub_comm]
  · show decide (a = b) = decide (b = a)
    exact decide_eq_decide.mpr eq_comm

/-- Claim C9: anything compared with NaN is unequal — `equals(NaN, b)` and
`equals(b, NaN)` are false for every floating-point type and every value
`b`, NaN itself included, because `|NaN - b|` is NaN and `NaN < epsilon`
is false. -/
theorem C9_nan_never_equal (t : FloatTy) (b : FP) :
    MathTypeTraitsFloatingPoint.equals t .nan b = false ∧
    MathTypeTraitsFloatingPoint.equals t b .nan = false := by
  cases b <;> simp [MathTypeTraitsFloatingPoint.equals, FP.sub, FP.abs, FP.lt]

/-- Claim C10: two infinities of the same sign compare unequal for every
floating-point type, because `∞ - ∞` is NaN and `NaN < epsilon` is
false (the header flags this with `@bug Infinity comparison!`). -/
theorem C10_infinity_not_equal (t : FloatTy) :
    MathTypeTraitsFloatingPoint.equals t .posInf .posInf = false ∧
    MathTypeTraitsFloatingPoint.equals t .negInf .negInf = false :=
  ⟨rfl, rfl⟩
